import Mathlib

/-!
Verification of the critical-one dice-elimination game server.

Shallow embedding of the core:
- the game state machine (src/game/domain.rs, src/game/types.rs),
- the WebSocket command handlers (src/handlers/ws.rs),
- the REST join handler (src/handlers/rest.rs).

Identifiers (PlayerId, GameId) are opaque 128-bit values compared only for
equality; they are modelled as Nat. Rust in-place mutation is modelled by
returning the new Game; a Rust method that returns Err before mutating is
modelled as Except.error (carrying no game), which encodes that the game is
left unchanged on that path.
-/

abbrev PlayerId := Nat
abbrev GameId := Nat

/-- GameStatus from src/game/types.rs (current revision: exactly the four
variants matched exhaustively in Game.roll in src/game/domain.rs). -/
inductive GameStatus where
  | WaitingForPlayers
  | InProgress
  | PausedForReconnect (p : PlayerId)
  | PlayerLost (p : PlayerId)
deriving DecidableEq, Repr

/-- GameError from src/game/types.rs (the five variants constructed in
src/game/domain.rs). -/
inductive GameError where
  | GameFinished
  | NotYourTurn
  | GameFull
  | GamePaused
  | NotEnoughPlayers
deriving DecidableEq, Repr

/-- GameEvent from src/game/types.rs (the two variants built in
Game.handle_roll). -/
inductive GameEvent where
  | Rolled (player_id : PlayerId) (value : Nat)
  | GameOver (winner_id : PlayerId) (loser_id : PlayerId)
deriving DecidableEq, Repr

/-- The Game aggregate, src/game/domain.rs lines 7-14. current_max is a u32
and turn_index a usize; both are modelled as Nat (the code only ever assigns
roller output to current_max and takes turn_index modulo the player count, so
no overflow arises on any path a claim touches). -/
structure Game where
  id : GameId
  players : List PlayerId
  current_max : Nat
  turn_index : Nat
  status : GameStatus
deriving DecidableEq, Repr

namespace Game

/-- Game::new, src/game/domain.rs lines 18-26. -/
def new (host_id : PlayerId) (id : GameId) : Game :=
  { id := id
    players := [host_id]
    current_max := 1000
    turn_index := 0
    status := GameStatus.WaitingForPlayers }

/-- Game::get_current_player, src/game/domain.rs lines 45-47
(players.get(turn_index)). -/
def get_current_player (g : Game) : Option PlayerId :=
  g.players[g.turn_index]?

/-- Game::join, src/game/domain.rs lines 51-63. The Err path returns before
the push, so the game is unchanged there. -/
def join (g : Game) (player_id : PlayerId) : Except GameError Game :=
  if g.status ≠ GameStatus.WaitingForPlayers then
    Except.error GameError.GameFull
  else
    let g1 : Game := { g with players := g.players ++ [player_id] }
    if g1.players.length = 2 then
      Except.ok { g1 with status := GameStatus.InProgress }
    else
      Except.ok g1

/-- Game::reconnect, src/game/domain.rs lines 66-80. -/
def reconnect (g : Game) (player_id : PlayerId) : Except GameError Game :=
  match g.status with
  | GameStatus.PausedForReconnect disconnected_player =>
      if disconnected_player = player_id then
        Except.ok { g with status := GameStatus.InProgress }
      else
        Except.error GameError.GameFull
  | GameStatus.InProgress => Except.ok g
  | _ => Except.error GameError.GamePaused

/-- Game::pause_game, src/game/domain.rs lines 83-91. -/
def pause_game (g : Game) (disconnected_player : PlayerId) :
    Except GameError Game :=
  if g.status ≠ GameStatus.InProgress then
    Except.error GameError.GameFinished
  else
    Except.ok { g with status := GameStatus.PausedForReconnect disconnected_player }

/-- Game::next_turn, src/game/domain.rs lines 116-118. -/
def next_turn (g : Game) : Game :=
  { g with turn_index := (g.turn_index + 1) % g.players.length }

/-- Game::handle_roll, src/game/domain.rs lines 120-146. Returns the updated
game together with the events appended to the (initially empty) event buffer
of Game::roll. -/
def handle_roll (g : Game) (player_id : PlayerId) (roll_result : Nat) :
    Game × List GameEvent :=
  if g.status ≠ GameStatus.InProgress then
    (g, [])
  else
    let events := [GameEvent.Rolled player_id roll_result]
    if roll_result = 1 then
      let winner_id :=
        ((g.players.find? (fun p => p != player_id)).getD player_id)
      ({ g with status := GameStatus.PlayerLost player_id },
        events ++ [GameEvent.GameOver winner_id player_id])
    else
      (Game.next_turn { g with current_max := roll_result }, events)

/-- Game::roll, src/game/domain.rs lines 94-113. The injected roller is a
function of the inclusive upper bound (one call to roll_in_range per roll). -/
def roll (g : Game) (player_id : PlayerId) (roller : Nat → Nat) :
    Except GameError (Game × List GameEvent) :=
  match g.status with
  | GameStatus.InProgress =>
      if g.get_current_player ≠ some player_id then
        Except.error GameError.NotYourTurn
      else
        let roll_result := roller g.current_max
        Except.ok (g.handle_roll player_id roll_result)
  | GameStatus.WaitingForPlayers => Except.error GameError.NotEnoughPlayers
  | GameStatus.PausedForReconnect _ => Except.error GameError.GamePaused
  | GameStatus.PlayerLost _ => Except.error GameError.GameFinished

end Game

/-!
Handler layer (src/handlers/ws.rs and src/handlers/rest.rs).

The session registry entry for one game is the key set of its
player-to-channel HashMap, modelled as a duplicate-free list of PlayerId in
iteration order. Delivering a message to a channel is modelled by appending
the pair (recipient, message) to an output trace, so the trace records both
the content and the order of every delivery.

Repository calls are modelled by their results: the stored record is an
Option Game (none when the key is absent or the load fails), and the outcome
of a save call is a Bool parameter (save failures in ws.rs are consumed at
the call site, never retried).
-/

/-- ServerMessage from src/data.rs. The ERROR payload carries a message
string derived from the GameError by Display; it is modelled by the
GameError itself. -/
inductive ServerMessage where
  | GameState (g : Game)
  | Error (message : GameError)
  | PlayerJoined (player_id : PlayerId)
  | RollResult (player_id : PlayerId) (rolled_value : Nat)
  | GameStarted (g : Game)
  | GameOver (winner_id : PlayerId) (loser_id : PlayerId)
deriving DecidableEq, Repr

/-- One delivery to one registered channel: recipient and payload. -/
abbrev Delivery := PlayerId × ServerMessage

/-- broadcast_message, src/handlers/ws.rs lines 37-50: sends the message to
every registered channel of the game, in registry iteration order. -/
def broadcast_message (registered : List PlayerId) (message : ServerMessage) :
    List Delivery :=
  registered.map (fun pid => (pid, message))

/-- send_error_to_player, src/handlers/ws.rs lines 210-219: private delivery
to one registered player; silently does nothing when the player has no
registered channel. -/
def send_error_to_player (registered : List PlayerId) (player_id : PlayerId)
    (msg : GameError) : List Delivery :=
  if player_id ∈ registered then [(player_id, ServerMessage.Error msg)] else []

/-- The wire form of one game event as broadcast by handle_roll_command,
src/handlers/ws.rs lines 163-177. -/
def eventToMessage : GameEvent → ServerMessage
  | GameEvent.Rolled player_id value => ServerMessage.RollResult player_id value
  | GameEvent.GameOver winner_id loser_id => ServerMessage.GameOver winner_id loser_id

/-- handle_roll_command, src/handlers/ws.rs lines 150-185. Arguments:
registered channels of the game, the stored record (load result), the save
outcome, the acting player and the roller. Returns the delivery trace in
emission order and the stored record after the command. On save failure the
code logs and returns: nothing is delivered and the store is unchanged. -/
def handle_roll_command (registered : List PlayerId) (stored : Option Game)
    (saveOk : Bool) (player_id : PlayerId) (roller : Nat → Nat) :
    List Delivery × Option Game :=
  match stored with
  | none => ([], stored)
  | some game =>
    match game.roll player_id roller with
    | Except.ok (game1, events) =>
        if saveOk then
          ((events.flatMap (fun ev => broadcast_message registered (eventToMessage ev)))
            ++ broadcast_message registered (ServerMessage.GameState game1),
           some game1)
        else
          ([], stored)
    | Except.error e =>
        (send_error_to_player registered player_id e, stored)

/-- handle_disconnect, src/handlers/ws.rs lines 188-207. Removes the player
from the session registry; then, only when the stored game is InProgress,
pauses it (result ignored by the code), saves (result ignored: on save
failure the store keeps the old record but the snapshot is broadcast anyway)
and broadcasts the updated snapshot. Returns the registry after removal, the
delivery trace and the stored record after the command. -/
def handle_disconnect (registered : List PlayerId) (stored : Option Game)
    (saveOk : Bool) (player_id : PlayerId) :
    List PlayerId × List Delivery × Option Game :=
  let reg1 := registered.erase player_id
  match stored with
  | none => (reg1, [], stored)
  | some game =>
    if game.status = GameStatus.InProgress then
      let game1 :=
        match game.pause_game player_id with
        | Except.ok g2 => g2
        | Except.error _ => game
      (reg1, broadcast_message reg1 (ServerMessage.GameState game1),
       if saveOk then some game1 else stored)
    else
      (reg1, [], stored)

/-- AppError from src/error.rs, restricted to the variants join_game_handler
can produce (Redis stands for any store failure surfaced by save_game). -/
inductive AppError where
  | Redis
  | GameNotFound (id : GameId)
  | GameRule (e : GameError)
  | Forbidden (msg : String)
deriving DecidableEq, Repr

/-- join_game_handler, src/handlers/rest.rs lines 47-80. Arguments: the
stored record for the requested id, the id, the requesting player and the
save outcome. Returns the handler result (Ok carries the 200-response game)
and the stored record after the request; a domain error or Forbidden
propagates before save_game is reached, so the store is untouched there. -/
def join_game_handler (stored : Option Game) (game_id : GameId)
    (joining_player : PlayerId) (saveOk : Bool) :
    Except AppError Game × Option Game :=
  match stored with
  | none => (Except.error (AppError.GameNotFound game_id), stored)
  | some game =>
    let dispatched : Except AppError Game :=
      match game.status with
      | GameStatus.WaitingForPlayers =>
          if joining_player ∈ game.players then
            Except.ok game
          else
            (game.join joining_player).mapError AppError.GameRule
      | _ =>
          if joining_player ∈ game.players then
            (game.reconnect joining_player).mapError AppError.GameRule
          else
            Except.error (AppError.Forbidden "Unauthorized")
    match dispatched with
    | Except.error e => (Except.error e, stored)
    | Except.ok game1 =>
        if saveOk then (Except.ok game1, some game1)
        else (Except.error AppError.Redis, stored)

/-!
Reachability: every game obtainable from Game::new by the four public
mutators, with rollers honoring the contract of src/game/roller.rs
(roll_in_range returns a value in the closed range [1, max]). Failed calls
return Err before mutating, so only Ok outcomes produce new states.
-/

/-- Games reachable from creation via join, reconnect, pause_game and roll
with contract-honoring rollers. -/
inductive Reachable : Game → Prop
  | create (host_id : PlayerId) (id : GameId) : Reachable (Game.new host_id id)
  | join {g g1 : Game} (p : PlayerId) :
      Reachable g → g.join p = Except.ok g1 → Reachable g1
  | reconnect {g g1 : Game} (p : PlayerId) :
      Reachable g → g.reconnect p = Except.ok g1 → Reachable g1
  | pause {g g1 : Game} (p : PlayerId) :
      Reachable g → g.pause_game p = Except.ok g1 → Reachable g1
  | roll {g g1 : Game} {ev : List GameEvent} (p : PlayerId) (roller : Nat → Nat) :
      Reachable g → 1 ≤ roller g.current_max → roller g.current_max ≤ g.current_max →
      g.roll p roller = Except.ok (g1, ev) → Reachable g1

/-- The data-model invariants of spec section 3. -/
def GameInv (g : Game) : Prop :=
  (g.players ≠ [] → g.turn_index < g.players.length) ∧
  g.players.length ≤ 2 ∧
  (g.status = GameStatus.WaitingForPlayers ↔ g.players.length = 1) ∧
  1 ≤ g.current_max

/-- Terminality: in a PlayerLost state every operation fails, so nothing
mutates players, current_max, turn_index or status any further. -/
def TerminalNoMutation (g : Game) : Prop :=
  ∀ q, g.status = GameStatus.PlayerLost q →
    ∀ p (roller : Nat → Nat),
      g.join p = Except.error GameError.GameFull ∧
      g.reconnect p = Except.error GameError.GamePaused ∧
      g.pause_game p = Except.error GameError.GameFinished ∧
      g.roll p roller = Except.error GameError.GameFinished

/-- The winner computed by Game::handle_roll on a losing roll: the first
player different from the actor, falling back to the actor. -/
def losingRollWinner (g : Game) (player_id : PlayerId) : PlayerId :=
  (g.players.find? (fun p => p != player_id)).getD player_id

theorem handle_roll_inProgress (g : Game) (p : PlayerId) (v : Nat)
    (hs : g.status = GameStatus.InProgress) :
    g.handle_roll p v =
      if v = 1 then
        ({ g with status := GameStatus.PlayerLost p },
         [GameEvent.Rolled p v, GameEvent.GameOver (losingRollWinner g p) p])
      else
        (Game.next_turn { g with current_max := v }, [GameEvent.Rolled p v]) := by
  unfold Game.handle_roll
  rw [if_neg (by simp [hs])]
  rfl

theorem roll_inProgress_current (g : Game) (p : PlayerId) (roller : Nat → Nat)
    (hs : g.status = GameStatus.InProgress)
    (hc : g.get_current_player = some p) :
    g.roll p roller = Except.ok (g.handle_roll p (roller g.current_max)) := by
  unfold Game.roll
  rw [hs]
  simp [hc]

theorem roll_waiting (g : Game) (p : PlayerId) (roller : Nat → Nat)
    (hs : g.status = GameStatus.WaitingForPlayers) :
    g.roll p roller = Except.error GameError.NotEnoughPlayers := by
  unfold Game.roll
  rw [hs]

theorem roll_paused (g : Game) (p : PlayerId) (roller : Nat → Nat) {q : PlayerId}
    (hs : g.status = GameStatus.PausedForReconnect q) :
    g.roll p roller = Except.error GameError.GamePaused := by
  unfold Game.roll
  rw [hs]

theorem roll_finished (g : Game) (p : PlayerId) (roller : Nat → Nat) {q : PlayerId}
    (hs : g.status = GameStatus.PlayerLost q) :
    g.roll p roller = Except.error GameError.GameFinished := by
  unfold Game.roll
  rw [hs]

theorem roll_notYourTurn (g : Game) (p : PlayerId) (roller : Nat → Nat)
    (hs : g.status = GameStatus.InProgress)
    (hc : g.get_current_player ≠ some p) :
    g.roll p roller = Except.error GameError.NotYourTurn := by
  unfold Game.roll
  rw [hs]
  simp [hc]

theorem gameInv_new (h : PlayerId) (i : GameId) : GameInv (Game.new h i) := by
  simp [GameInv, Game.new]

theorem gameInv_join {g g1 : Game} {p : PlayerId} (hg : GameInv g)
    (h : g.join p = Except.ok g1) : GameInv g1 := by
  unfold Game.join at h
  by_cases hs : g.status = GameStatus.WaitingForPlayers
  · have hlen : g.players.length = 1 := hg.2.2.1.mp hs
    simp [hs, hlen] at h
    subst h
    refine ⟨fun _ => ?_, by simp [hlen], by simp [hlen], hg.2.2.2⟩
    have ht : g.turn_index < g.players.length := hg.1 (by
      intro hnil; rw [hnil] at hlen; simp at hlen)
    simp only [List.length_append, List.length_cons, List.length_nil]
    omega
  · simp [hs] at h

theorem gameInv_reconnect {g g1 : Game} {p : PlayerId} (hg : GameInv g)
    (h : g.reconnect p = Except.ok g1) : GameInv g1 := by
  unfold Game.reconnect at h
  cases hs : g.status with
  | PausedForReconnect q =>
      rw [hs] at h
      by_cases hq : q = p
      · have hne1 : g.players.length ≠ 1 := by
          intro hc
          rw [hg.2.2.1.mpr hc] at hs
          exact GameStatus.noConfusion hs
        simp only [if_pos hq, Except.ok.injEq] at h
        subst h
        exact ⟨hg.1, hg.2.1, by simp [hne1], hg.2.2.2⟩
      · simp [hq] at h
  | InProgress =>
      rw [hs] at h
      simp only [Except.ok.injEq] at h
      subst h
      exact hg
  | WaitingForPlayers => rw [hs] at h; simp at h
  | PlayerLost q => rw [hs] at h; simp at h

theorem gameInv_pause {g g1 : Game} {p : PlayerId} (hg : GameInv g)
    (h : g.pause_game p = Except.ok g1) : GameInv g1 := by
  unfold Game.pause_game at h
  by_cases hs : g.status = GameStatus.InProgress
  · have hne1 : g.players.length ≠ 1 := by
      intro hc
      rw [hg.2.2.1.mpr hc] at hs
      exact GameStatus.noConfusion hs
    rw [if_neg (by simp [hs])] at h
    simp only [Except.ok.injEq] at h
    rw [← h]
    exact ⟨hg.1, hg.2.1, by simp [hne1], hg.2.2.2⟩
  · simp [hs] at h

theorem current_player_index {g : Game} {p : PlayerId}
    (hc : g.get_current_player = some p) : g.turn_index < g.players.length := by
  have := List.getElem?_eq_some_iff.mp hc
  exact this.choose

theorem gameInv_roll {g g1 : Game} {ev : List GameEvent} {p : PlayerId}
    {roller : Nat → Nat} (hg : GameInv g) (hlo : 1 ≤ roller g.current_max)
    (h : g.roll p roller = Except.ok (g1, ev)) : GameInv g1 := by
  cases hs : g.status with
  | WaitingForPlayers => rw [roll_waiting g p roller hs] at h; simp at h
  | PausedForReconnect q => rw [roll_paused g p roller hs] at h; simp at h
  | PlayerLost q => rw [roll_finished g p roller hs] at h; simp at h
  | InProgress =>
      by_cases hc : g.get_current_player = some p
      · rw [roll_inProgress_current g p roller hs hc] at h
        simp only [Except.ok.injEq] at h
        rw [handle_roll_inProgress g p _ hs] at h
        have hidx : g.turn_index < g.players.length := current_player_index hc
        have hne1 : g.players.length ≠ 1 := by
          intro hc1
          rw [hg.2.2.1.mpr hc1] at hs
          exact GameStatus.noConfusion hs
        by_cases hv : roller g.current_max = 1
        · rw [if_pos hv] at h
          simp only [Prod.mk.injEq] at h
          rw [← h.1]
          exact ⟨fun _ => hidx, hg.2.1, by simp [hne1], hg.2.2.2⟩
        · rw [if_neg hv] at h
          simp only [Prod.mk.injEq] at h
          rw [← h.1]
          refine ⟨fun _ => ?_, ?_, ?_, ?_⟩
          · simp only [Game.next_turn]
            exact Nat.mod_lt _ (Nat.lt_of_le_of_lt (Nat.zero_le _) hidx)
          · simpa [Game.next_turn] using hg.2.1
          · simp [Game.next_turn, hne1, hs]
          · simpa [Game.next_turn] using hlo
      · rw [roll_notYourTurn g p roller hs hc] at h
        simp at h

theorem terminal_of_playerLost {g : Game} : TerminalNoMutation g := by
  intro q hs p roller
  refine ⟨?_, ?_, ?_, ?_⟩
  · unfold Game.join; rw [if_pos (by simp [hs])]
  · unfold Game.reconnect; rw [hs]
  · unfold Game.pause_game; rw [if_pos (by simp [hs])]
  · unfold Game.roll; rw [hs]

theorem losingRollWinner_other {g : Game} {p : PlayerId}
    (hex : ∃ q ∈ g.players, q ≠ p) :
    losingRollWinner g p ∈ g.players ∧ losingRollWinner g p ≠ p := by
  obtain ⟨q, hq, hqp⟩ := hex
  have hsome : (g.players.find? (fun r => r != p)).isSome := by
    rw [List.find?_isSome]
    exact ⟨q, hq, by simpa using hqp⟩
  obtain ⟨w, hw⟩ := Option.isSome_iff_exists.mp hsome
  unfold losingRollWinner
  rw [hw]
  simp only [Option.getD_some]
  exact ⟨List.mem_of_find?_eq_some hw, by simpa using List.find?_some hw⟩

/-- C1: for an InProgress game whose current player is p, with a roller
honoring the [1, current_max] contract, roll returns Ok; the first event is
Rolled(p, v); on v = 1 the status becomes PlayerLost(p), a GameOver event
names the other player as winner and p as loser, the turn does not rotate
and current_max is untouched; otherwise current_max becomes v, the turn
advances by one modulo the player count, the status stays InProgress and
Rolled is the only event. -/
theorem roll_behavior_inProgress (g : Game) (p : PlayerId) (roller : Nat → Nat)
    (hs : g.status = GameStatus.InProgress)
    (hc : g.get_current_player = some p)
    (hlo : 1 ≤ roller g.current_max)
    (hhi : roller g.current_max ≤ g.current_max) :
    ∃ g1 events, g.roll p roller = Except.ok (g1, events) ∧
      events.head? = some (GameEvent.Rolled p (roller g.current_max)) ∧
      (roller g.current_max = 1 →
        g1.status = GameStatus.PlayerLost p ∧
        g1.current_max = g.current_max ∧
        g1.turn_index = g.turn_index ∧
        g1.players = g.players ∧
        ∃ w, events = [GameEvent.Rolled p 1, GameEvent.GameOver w p] ∧
          ((∃ q ∈ g.players, q ≠ p) → w ∈ g.players ∧ w ≠ p)) ∧
      (roller g.current_max ≠ 1 →
        g1.current_max = roller g.current_max ∧
        g1.turn_index = (g.turn_index + 1) % g.players.length ∧
        g1.status = GameStatus.InProgress ∧
        g1.players = g.players ∧
        events = [GameEvent.Rolled p (roller g.current_max)]) := by
  rw [roll_inProgress_current g p roller hs hc, handle_roll_inProgress g p _ hs]
  by_cases hv : roller g.current_max = 1
  · rw [if_pos hv]
    refine ⟨_, _, rfl, by rw [hv]; rfl, fun _ => ?_, fun hvn => absurd hv hvn⟩
    refine ⟨rfl, rfl, rfl, rfl, losingRollWinner g p, by rw [hv], ?_⟩
    exact fun hex => losingRollWinner_other hex
  · rw [if_neg hv]
    refine ⟨_, _, rfl, rfl, fun hv1 => absurd hv1 hv, fun _ => ?_⟩
    exact ⟨rfl, rfl, hs, rfl, rfl⟩

/-- C1 witness: a concrete 2-player InProgress game whose current player 3
rolls 500 with current_max 1000. -/
theorem roll_behavior_inProgress_witness :
    ∃ g1 events,
      ({ id := 9, players := [3, 4], current_max := 1000, turn_index := 0,
         status := GameStatus.InProgress } : Game).roll 3 (fun _ => 500) =
        Except.ok (g1, events) ∧
      events.head? = some (GameEvent.Rolled 3 500) ∧
      ((500 : Nat) = 1 →
        g1.status = GameStatus.PlayerLost 3 ∧
        g1.current_max = 1000 ∧
        g1.turn_index = 0 ∧
        g1.players = [3, 4] ∧
        ∃ w, events = [GameEvent.Rolled 3 1, GameEvent.GameOver w 3] ∧
          ((∃ q ∈ [3, 4], q ≠ 3) → w ∈ [(3 : PlayerId), 4] ∧ w ≠ 3)) ∧
      ((500 : Nat) ≠ 1 →
        g1.current_max = 500 ∧
        g1.turn_index = (0 + 1) % 2 ∧
        g1.status = GameStatus.InProgress ∧
        g1.players = [3, 4] ∧
        events = [GameEvent.Rolled 3 500]) :=
  roll_behavior_inProgress
    { id := 9, players := [3, 4], current_max := 1000, turn_index := 0,
      status := GameStatus.InProgress } 3 (fun _ => 500)
    rfl rfl (by decide) (by decide)

/-- C2: every game reachable from creation via join, reconnect, pause and
contract-honoring rolls satisfies the data-model invariants, and a game in a
PlayerLost state is terminal: every further operation fails, mutating
nothing. -/
theorem reachable_game_invariants (g : Game) (h : Reachable g) :
    GameInv g ∧ TerminalNoMutation g := by
  refine ⟨?_, terminal_of_playerLost⟩
  induction h with
  | create host_id id => exact gameInv_new host_id id
  | join p hr hok ih => exact gameInv_join ih hok
  | reconnect p hr hok ih => exact gameInv_reconnect ih hok
  | pause p hr hok ih => exact gameInv_pause ih hok
  | roll p roller hr hlo hhi hok ih => exact gameInv_roll ih hlo hok

/-- C2 witness: a freshly created game is reachable and the invariants hold
for it. -/
theorem reachable_game_invariants_witness :
    GameInv (Game.new 0 7) ∧ TerminalNoMutation (Game.new 0 7) :=
  reachable_game_invariants (Game.new 0 7) (Reachable.create 0 7)

/-- C3: roll fails exactly according to the status checked first —
NotEnoughPlayers iff WaitingForPlayers, GamePaused iff PausedForReconnect,
GameFinished iff PlayerLost, and NotYourTurn iff the game is InProgress and
the caller is not the player at turn_index; in particular a non-current
player on a paused game gets GamePaused. -/
theorem roll_error_dispatch (g : Game) (p : PlayerId) (roller : Nat → Nat) :
    (g.roll p roller = Except.error GameError.NotEnoughPlayers ↔
       g.status = GameStatus.WaitingForPlayers) ∧
    (g.roll p roller = Except.error GameError.GamePaused ↔
       ∃ q, g.status = GameStatus.PausedForReconnect q) ∧
    (g.roll p roller = Except.error GameError.GameFinished ↔
       ∃ q, g.status = GameStatus.PlayerLost q) ∧
    (g.roll p roller = Except.error GameError.NotYourTurn ↔
       (g.status = GameStatus.InProgress ∧ g.get_current_player ≠ some p)) := by
  cases hst : g.status with
  | WaitingForPlayers =>
      rw [roll_waiting g p roller hst]
      refine ⟨by simp, by simp [hst], by simp [hst], by simp [hst]⟩
  | PausedForReconnect q =>
      rw [roll_paused g p roller hst]
      refine ⟨by simp, by simp [hst], by simp [hst], by simp [hst]⟩
  | PlayerLost q =>
      rw [roll_finished g p roller hst]
      refine ⟨by simp, by simp [hst], by simp [hst], by simp [hst]⟩
  | InProgress =>
      by_cases hc : g.get_current_player = some p
      · rw [roll_inProgress_current g p roller hst hc]
        refine ⟨by simp, by simp [hst], by simp [hst], by simp [hst, hc]⟩
      · rw [roll_notYourTurn g p roller hst hc]
        refine ⟨by simp, by simp [hst], by simp [hst], by simp [hst, hc]⟩

/-- C4: on a fresh game the first join with a second id succeeds, appends the
guest (join order = turn order) and starts the game; join on any game whose
status is not WaitingForPlayers fails with GameFull (the Err path returns
before the push, leaving the game unchanged). -/
theorem join_first_then_full (host guest : PlayerId) (id : GameId)
    (g : Game) (p : PlayerId)
    (hns : g.status ≠ GameStatus.WaitingForPlayers) :
    (Game.new host id).join guest =
      Except.ok { id := id, players := [host, guest], current_max := 1000,
                  turn_index := 0, status := GameStatus.InProgress } ∧
    g.join p = Except.error GameError.GameFull := by
  constructor
  · unfold Game.new Game.join
    simp
  · unfold Game.join
    rw [if_pos hns]

/-- C4 witness: a concrete fresh game accepts one guest and the resulting
full game rejects a third player. -/
theorem join_first_then_full_witness :
    (Game.new 0 7).join 1 =
      Except.ok { id := 7, players := [0, 1], current_max := 1000,
                  turn_index := 0, status := GameStatus.InProgress } ∧
    ({ id := 7, players := [0, 1], current_max := 1000, turn_index := 0,
       status := GameStatus.InProgress } : Game).join 2 =
      Except.error GameError.GameFull :=
  join_first_then_full 0 1 7
    { id := 7, players := [0, 1], current_max := 1000, turn_index := 0,
      status := GameStatus.InProgress } 2 (by decide)

/-- C5: reconnect succeeds and resumes only for the paused player recorded in
PausedForReconnect; the wrong player gets GameFull; from InProgress it is a
no-op success returning the unchanged game; from WaitingForPlayers and
PlayerLost it fails with GamePaused. -/
theorem reconnect_dispatch (g : Game) (p : PlayerId) :
    (∀ q, g.status = GameStatus.PausedForReconnect q →
       (q = p → g.reconnect p = Except.ok { g with status := GameStatus.InProgress }) ∧
       (q ≠ p → g.reconnect p = Except.error GameError.GameFull)) ∧
    (g.status = GameStatus.InProgress → g.reconnect p = Except.ok g) ∧
    (g.status = GameStatus.WaitingForPlayers →
       g.reconnect p = Except.error GameError.GamePaused) ∧
    (∀ q, g.status = GameStatus.PlayerLost q →
       g.reconnect p = Except.error GameError.GamePaused) := by
  refine ⟨?_, ?_, ?_, ?_⟩
  · intro q hs
    constructor
    · intro hq
      unfold Game.reconnect
      rw [hs]
      simp [hq]
    · intro hq
      unfold Game.reconnect
      rw [hs]
      simp [hq]
  · intro hs
    unfold Game.reconnect
    rw [hs]
  · intro hs
    unfold Game.reconnect
    rw [hs]
  · intro q hs
    unfold Game.reconnect
    rw [hs]

/-- C5 witness: concrete paused game — the paused player resumes it; in a
game paused for another player the requester gets GameFull; InProgress is a
no-op success; Waiting and PlayerLost give GamePaused. -/
theorem reconnect_dispatch_witness :
    ({ id := 7, players := [0, 1], current_max := 40, turn_index := 1,
       status := GameStatus.PausedForReconnect 0 } : Game).reconnect 0 =
      Except.ok { id := 7, players := [0, 1], current_max := 40, turn_index := 1,
                  status := GameStatus.InProgress } ∧
    ({ id := 7, players := [0, 1], current_max := 40, turn_index := 1,
       status := GameStatus.PausedForReconnect 0 } : Game).reconnect 1 =
      Except.error GameError.GameFull ∧
    ({ id := 7, players := [0, 1], current_max := 40, turn_index := 1,
       status := GameStatus.InProgress } : Game).reconnect 0 =
      Except.ok { id := 7, players := [0, 1], current_max := 40, turn_index := 1,
                  status := GameStatus.InProgress } ∧
    (Game.new 0 7).reconnect 0 = Except.error GameError.GamePaused ∧
    ({ id := 7, players := [0, 1], current_max := 40, turn_index := 1,
       status := GameStatus.PlayerLost 1 } : Game).reconnect 0 =
      Except.error GameError.GamePaused :=
  ⟨((reconnect_dispatch
      { id := 7, players := [0, 1], current_max := 40, turn_index := 1,
        status := GameStatus.PausedForReconnect 0 } 0).1 0 rfl).1 rfl,
   ((reconnect_dispatch
      { id := 7, players := [0, 1], current_max := 40, turn_index := 1,
        status := GameStatus.PausedForReconnect 0 } 1).1 0 rfl).2 (by decide),
   (reconnect_dispatch
      { id := 7, players := [0, 1], current_max := 40, turn_index := 1,
        status := GameStatus.InProgress } 0).2.1 rfl,
   (reconnect_dispatch (Game.new 0 7) 0).2.2.1 rfl,
   (reconnect_dispatch
      { id := 7, players := [0, 1], current_max := 40, turn_index := 1,
        status := GameStatus.PlayerLost 1 } 0).2.2.2 1 rfl⟩

/-- C10: duplicate ids are not rejected — joining a waiting single-player
game with the same id h succeeds, yields players [h, h] and starts the game;
if h then rolls a 1 there, the GameOver event names h as both winner and
loser, since the other-player lookup falls back to the actor. -/
theorem duplicate_join_then_self_gameover (g : Game) (h : PlayerId)
    (hst : g.status = GameStatus.WaitingForPlayers)
    (hpl : g.players = [h]) (hti : g.turn_index = 0) :
    ∃ g1, g.join h = Except.ok g1 ∧
      g1.players = [h, h] ∧
      g1.status = GameStatus.InProgress ∧
      ∃ g2, g1.roll h (fun _ => 1) =
          Except.ok (g2, [GameEvent.Rolled h 1, GameEvent.GameOver h h]) ∧
        g2.status = GameStatus.PlayerLost h := by
  have hjoin : g.join h =
      Except.ok { g with players := [h, h], status := GameStatus.InProgress } := by
    unfold Game.join
    rw [if_neg (by simp [hst])]
    simp [hpl]
  refine ⟨_, hjoin, rfl, rfl, ?_⟩
  set g1 : Game := { g with players := [h, h], status := GameStatus.InProgress } with hg1
  have hcur : g1.get_current_player = some h := by
    simp [Game.get_current_player, hg1, hti]
  rw [roll_inProgress_current g1 h _ rfl hcur, handle_roll_inProgress g1 h _ rfl]
  rw [if_pos rfl]
  have hwin : losingRollWinner g1 h = h := by
    simp [losingRollWinner, hg1, List.find?]
  rw [hwin]
  exact ⟨_, rfl, rfl⟩

/-- C10 witness: concrete waiting game with sole player 5. -/
theorem duplicate_join_then_self_gameover_witness :
    ∃ g1, ({ id := 7, players := [5], current_max := 1000, turn_index := 0,
             status := GameStatus.WaitingForPlayers } : Game).join 5 =
        Except.ok g1 ∧
      g1.players = [5, 5] ∧
      g1.status = GameStatus.InProgress ∧
      ∃ g2, g1.roll 5 (fun _ => 1) =
          Except.ok (g2, [GameEvent.Rolled 5 1, GameEvent.GameOver 5 5]) ∧
        g2.status = GameStatus.PlayerLost 5 :=
  duplicate_join_then_self_gameover
    { id := 7, players := [5], current_max := 1000, turn_index := 0,
      status := GameStatus.WaitingForPlayers } 5 rfl rfl rfl

/-- C6 counterexample: a successful roll whose save fails delivers no
message at all — in particular no private error reaches the acting player 0,
contradicting the claim that the failure is surfaced to them. The store does
keep the pre-roll game. -/
theorem save_failure_silent_counterexample :
    ({ id := 7, players := [0, 1], current_max := 1000, turn_index := 0,
       status := GameStatus.InProgress } : Game).roll 0 (fun _ => 500) =
      Except.ok ({ id := 7, players := [0, 1], current_max := 500, turn_index := 1,
                   status := GameStatus.InProgress }, [GameEvent.Rolled 0 500]) ∧
    handle_roll_command [0, 1]
      (some { id := 7, players := [0, 1], current_max := 1000, turn_index := 0,
              status := GameStatus.InProgress }) false 0 (fun _ => 500) =
      ([], some { id := 7, players := [0, 1], current_max := 1000, turn_index := 0,
                  status := GameStatus.InProgress }) := by
  constructor
  · rfl
  · rfl

/-- C6 amended: when the save of the updated game fails during ROLL handling,
the handler only logs and returns — the game is not advanced (the stored
record keeps its pre-roll value and no event or snapshot is broadcast), but
the failure is NOT surfaced to the acting player: no message of any kind is
delivered. -/
theorem save_failure_silent (registered : List PlayerId) (g g1 : Game)
    (ev : List GameEvent) (p : PlayerId) (roller : Nat → Nat)
    (hok : g.roll p roller = Except.ok (g1, ev)) :
    handle_roll_command registered (some g) false p roller = ([], some g) := by
  simp [handle_roll_command, hok]

/-- C6 amended witness: the concrete scenario of the counterexample. -/
theorem save_failure_silent_witness :
    handle_roll_command [0, 1]
      (some { id := 7, players := [0, 1], current_max := 1000, turn_index := 0,
              status := GameStatus.InProgress }) false 0 (fun _ => 500) =
      ([], some { id := 7, players := [0, 1], current_max := 1000, turn_index := 0,
                  status := GameStatus.InProgress }) :=
  save_failure_silent [0, 1]
    { id := 7, players := [0, 1], current_max := 1000, turn_index := 0,
      status := GameStatus.InProgress }
    { id := 7, players := [0, 1], current_max := 500, turn_index := 1,
      status := GameStatus.InProgress }
    [GameEvent.Rolled 0 500] 0 (fun _ => 500) rfl

theorem pause_game_inProgress (g : Game) (p : PlayerId)
    (hs : g.status = GameStatus.InProgress) :
    g.pause_game p = Except.ok { g with status := GameStatus.PausedForReconnect p } := by
  unfold Game.pause_game
  rw [if_neg (by simp [hs])]

/-- C7: on disconnect the player is removed from the session registry; iff
the stored game is InProgress it is transitioned to PausedForReconnect of the
disconnecting player, persisted and its snapshot broadcast to the remaining
registered channels; for any other status nothing is saved or broadcast. -/
theorem disconnect_pause_dispatch (registered : List PlayerId) (g : Game)
    (p : PlayerId) :
    (g.status = GameStatus.InProgress →
       handle_disconnect registered (some g) true p =
         (registered.erase p,
          broadcast_message (registered.erase p)
            (ServerMessage.GameState { g with status := GameStatus.PausedForReconnect p }),
          some { g with status := GameStatus.PausedForReconnect p })) ∧
    (g.status ≠ GameStatus.InProgress →
       ∀ saveOk, handle_disconnect registered (some g) saveOk p =
         (registered.erase p, [], some g)) := by
  constructor
  · intro hs
    simp [handle_disconnect, if_pos hs, pause_game_inProgress g p hs]
  · intro hs saveOk
    simp [handle_disconnect, if_neg hs]

/-- C7 witness: concrete InProgress game paused on disconnect of player 0
with snapshot sent to the remaining player 1; a finished game is untouched. -/
theorem disconnect_pause_dispatch_witness :
    handle_disconnect [0, 1]
      (some { id := 7, players := [0, 1], current_max := 64, turn_index := 1,
              status := GameStatus.InProgress }) true 0 =
      ([1],
       [(1, ServerMessage.GameState
              { id := 7, players := [0, 1], current_max := 64, turn_index := 1,
                status := GameStatus.PausedForReconnect 0 })],
       some { id := 7, players := [0, 1], current_max := 64, turn_index := 1,
              status := GameStatus.PausedForReconnect 0 }) ∧
    handle_disconnect [0, 1]
      (some { id := 7, players := [0, 1], current_max := 64, turn_index := 1,
              status := GameStatus.PlayerLost 0 }) true 0 =
      ([1], [], some { id := 7, players := [0, 1], current_max := 64, turn_index := 1,
                       status := GameStatus.PlayerLost 0 }) :=
  ⟨(disconnect_pause_dispatch [0, 1]
      { id := 7, players := [0, 1], current_max := 64, turn_index := 1,
        status := GameStatus.InProgress } 0).1 rfl,
   (disconnect_pause_dispatch [0, 1]
      { id := 7, players := [0, 1], current_max := 64, turn_index := 1,
        status := GameStatus.PlayerLost 0 } 0).2 (by decide) true⟩

/-- C8: the REST join handler dispatches in exactly four cases — join for a
new player on a waiting game, no-op success for the sole waiting player,
reconnect for a member of a non-waiting game, and 403 Forbidden with no state
change for a non-member of a non-waiting game. -/
theorem rest_join_dispatch (g : Game) (game_id : GameId) (p : PlayerId) :
    (g.status = GameStatus.WaitingForPlayers → p ∉ g.players →
       ∀ g1, g.join p = Except.ok g1 →
         join_game_handler (some g) game_id p true = (Except.ok g1, some g1)) ∧
    (g.status = GameStatus.WaitingForPlayers → g.players = [p] →
       join_game_handler (some g) game_id p true = (Except.ok g, some g)) ∧
    (g.status ≠ GameStatus.WaitingForPlayers → p ∈ g.players →
       (∀ g1, g.reconnect p = Except.ok g1 →
          join_game_handler (some g) game_id p true = (Except.ok g1, some g1)) ∧
       (∀ e, g.reconnect p = Except.error e →
          ∀ saveOk, join_game_handler (some g) game_id p saveOk =
            (Except.error (AppError.GameRule e), some g))) ∧
    (g.status ≠ GameStatus.WaitingForPlayers → p ∉ g.players →
       ∀ saveOk, join_game_handler (some g) game_id p saveOk =
         (Except.error (AppError.Forbidden "Unauthorized"), some g)) := by
  refine ⟨?_, ?_, ?_, ?_⟩
  · intro hs hmem g1 hjoin
    simp [join_game_handler, hs, if_neg hmem, hjoin, Except.mapError]
  · intro hs hpl
    simp [join_game_handler, hs,
      if_pos (show p ∈ g.players by rw [hpl]; exact List.mem_singleton.mpr rfl)]
  · intro hs hmem
    constructor
    · intro g1 hrec
      simp only [join_game_handler]
      cases hst : g.status with
      | WaitingForPlayers => exact absurd hst hs
      | InProgress => simp [if_pos hmem, hrec, Except.mapError]
      | PausedForReconnect q => simp [if_pos hmem, hrec, Except.mapError]
      | PlayerLost q => simp [if_pos hmem, hrec, Except.mapError]
    · intro e hrec saveOk
      simp only [join_game_handler]
      cases hst : g.status with
      | WaitingForPlayers => exact absurd hst hs
      | InProgress => simp [if_pos hmem, hrec, Except.mapError]
      | PausedForReconnect q => simp [if_pos hmem, hrec, Except.mapError]
      | PlayerLost q => simp [if_pos hmem, hrec, Except.mapError]
  · intro hs hmem saveOk
    simp only [join_game_handler]
    cases hst : g.status with
    | WaitingForPlayers => exact absurd hst hs
    | InProgress => simp [if_neg hmem]
    | PausedForReconnect q => simp [if_neg hmem]
    | PlayerLost q => simp [if_neg hmem]

theorem filter_map_pair_of_not_mem {t : List PlayerId} {q : PlayerId}
    (hq : q ∉ t) (m : ServerMessage) :
    ((t.map (fun pid => ((pid, m) : Delivery))).filter (fun d => d.1 == q)) = [] := by
  induction t with
  | nil => rfl
  | cons a t ih =>
      have ha : a ≠ q := fun h => hq (h ▸ List.mem_cons_self a t)
      simp only [List.map_cons, List.filter_cons]
      rw [if_neg (by simpa using ha)]
      exact ih (fun h => hq (List.mem_cons_of_mem a h))

theorem filter_map_pair_self {t : List PlayerId} {q : PlayerId}
    (hnd : t.Nodup) (hq : q ∈ t) (m : ServerMessage) :
    ((t.map (fun pid => ((pid, m) : Delivery))).filter (fun d => d.1 == q)) = [(q, m)] := by
  induction t with
  | nil => cases hq
  | cons a t ih =>
      simp only [List.map_cons, List.filter_cons]
      by_cases ha : a = q
      · subst ha
        rw [if_pos (by simp)]
        have hnt : a ∉ t := (List.nodup_cons.mp hnd).1
        rw [filter_map_pair_of_not_mem hnt m]
      · rw [if_neg (by simpa using ha)]
        have hqt : q ∈ t := by
          rcases List.mem_cons.mp hq with h | h
          · exact absurd h.symm ha
          · exact h
        exact ih (List.nodup_cons.mp hnd).2 hqt

theorem filter_broadcast_self {registered : List PlayerId} {q : PlayerId}
    (hnd : registered.Nodup) (hq : q ∈ registered) (m : ServerMessage) :
    ((broadcast_message registered m).filter (fun d => d.1 == q)) = [(q, m)] :=
  filter_map_pair_self hnd hq m

theorem filter_events_broadcast {registered : List PlayerId} {q : PlayerId}
    (hnd : registered.Nodup) (hq : q ∈ registered) (ev : List GameEvent) :
    ((ev.flatMap (fun e => broadcast_message registered (eventToMessage e))).filter
        (fun d => d.1 == q)) =
      ev.map (fun e => ((q, eventToMessage e) : Delivery)) := by
  induction ev with
  | nil => rfl
  | cons e t ih =>
      simp only [List.flatMap_cons, List.filter_append, List.map_cons, ih]
      rw [filter_broadcast_self hnd hq]
      rfl

theorem handle_roll_command_ok (registered : List PlayerId) (g g1 : Game)
    (ev : List GameEvent) (p : PlayerId) (roller : Nat → Nat)
    (hok : g.roll p roller = Except.ok (g1, ev)) :
    handle_roll_command registered (some g) true p roller =
      ((ev.flatMap (fun e => broadcast_message registered (eventToMessage e))) ++
         broadcast_message registered (ServerMessage.GameState g1),
       some g1) := by
  simp [handle_roll_command, hok]

/-- C9: for a successful ROLL command the trace delivered to each registered
channel is exactly the wire form of the roll events, in order, followed by
the full updated snapshot — so every registered player receives the
roll/game-over event(s) strictly before the snapshot of that command. -/
theorem roll_broadcast_order (registered : List PlayerId) (g g1 : Game)
    (ev : List GameEvent) (p q : PlayerId) (roller : Nat → Nat)
    (hnd : registered.Nodup) (hq : q ∈ registered)
    (hok : g.roll p roller = Except.ok (g1, ev)) :
    (((handle_roll_command registered (some g) true p roller).1.filter
        (fun d => d.1 == q)).map Prod.snd) =
      ev.map eventToMessage ++ [ServerMessage.GameState g1] := by
  rw [handle_roll_command_ok registered g g1 ev p roller hok]
  simp only [List.filter_append, filter_events_broadcast hnd hq,
    filter_broadcast_self hnd hq, List.map_append, List.map_map]
  rfl

/-- C9 witness: two registered players; player 0 rolls 500; player 1 (and
symmetrically every registered channel) receives the ROLL_RESULT before the
GAME_STATE snapshot. -/
theorem roll_broadcast_order_witness :
    ((((handle_roll_command [0, 1]
          (some { id := 7, players := [0, 1], current_max := 1000, turn_index := 0,
                  status := GameStatus.InProgress }) true 0 (fun _ => 500)).1.filter
        (fun d => d.1 == 1)).map Prod.snd) =
      [GameEvent.Rolled 0 500].map eventToMessage ++
        [ServerMessage.GameState
          { id := 7, players := [0, 1], current_max := 500, turn_index := 1,
            status := GameStatus.InProgress }]) :=
  roll_broadcast_order [0, 1]
    { id := 7, players := [0, 1], current_max := 1000, turn_index := 0,
      status := GameStatus.InProgress }
    { id := 7, players := [0, 1], current_max := 500, turn_index := 1,
      status := GameStatus.InProgress }
    [GameEvent.Rolled 0 500] 0 1 (fun _ => 500) (by decide) (by decide) rfl

/-- C3 witness: on a concrete paused game any roll, by any player, reports
GamePaused (and that is the only error the status admits). -/
theorem roll_error_dispatch_witness :
    ({ id := 7, players := [0, 1], current_max := 40, turn_index := 1,
       status := GameStatus.PausedForReconnect 0 } : Game).roll 1 (fun _ => 5) =
        Except.error GameError.GamePaused ↔
      ∃ q, ({ id := 7, players := [0, 1], current_max := 40, turn_index := 1,
              status := GameStatus.PausedForReconnect 0 } : Game).status =
        GameStatus.PausedForReconnect q :=
  (roll_error_dispatch
    { id := 7, players := [0, 1], current_max := 40, turn_index := 1,
      status := GameStatus.PausedForReconnect 0 } 1 (fun _ => 5)).2.1

/-- C8 witness: a new player joins a concrete waiting game (dispatch to
join), and a non-member of an in-progress game gets Forbidden with the store
untouched. -/
theorem rest_join_dispatch_witness :
    join_game_handler (some (Game.new 0 7)) 7 1 true =
      (Except.ok { id := 7, players := [0, 1], current_max := 1000, turn_index := 0,
                   status := GameStatus.InProgress },
       some { id := 7, players := [0, 1], current_max := 1000, turn_index := 0,
              status := GameStatus.InProgress }) ∧
    join_game_handler
      (some { id := 7, players := [0, 1], current_max := 40, turn_index := 1,
              status := GameStatus.InProgress }) 7 9 true =
      (Except.error (AppError.Forbidden "Unauthorized"),
       some { id := 7, players := [0, 1], current_max := 40, turn_index := 1,
              status := GameStatus.InProgress }) :=
  ⟨(rest_join_dispatch (Game.new 0 7) 7 1).1 rfl (by decide)
      { id := 7, players := [0, 1], current_max := 1000, turn_index := 0,
        status := GameStatus.InProgress } rfl,
   (rest_join_dispatch
      { id := 7, players := [0, 1], current_max := 40, turn_index := 1,
        status := GameStatus.InProgress } 7 9).2.2.2 (by decide) (by decide) true⟩
